import Mathlib

/-!
Shallow embedding of the figure-building core of `src/app.py` (the
`make_plot` function of the tree-cover dashboard), together with proofs
about it.  Numeric dataframe columns are modelled as rationals; a pandas
exception escaping the call is modelled with `Except`.
-/

namespace TreeCoverDash

/-- One row of the `results_gdf` table: exactly the columns `make_plot`
reads — `location`, `point_geom` (the native projected geometry),
`tree_cover_change`, `tree_cover_2002`, `tree_cover_2022`, `color`,
`markersize`. -/
structure Record where
  location : String
  point_geom : ℚ × ℚ
  tree_cover_change : ℚ
  tree_cover_2002 : ℚ
  tree_cover_2022 : ℚ
  color : String
  markersize : ℚ
deriving DecidableEq

/-- The dataframe handed to `make_plot`.  `loaded rows` is a frame carrying
the full schema (the unpickled `results_gdf`); `emptyFallback` is the bare
`pd.DataFrame()` the loader substitutes when reading the pickle fails — a
frame with no columns at all. -/
inductive Dataset where
  | emptyFallback : Dataset
  | loaded : List Record → Dataset
deriving DecidableEq

/-- A pandas exception escaping `make_plot`. -/
inductive PandasError where
  | keyError : String → PandasError
deriving DecidableEq

/-- The shared filtering step `data = df[df["location"] == city].copy()`.
Reading the column `"location"` from the no-columns fallback frame raises
`KeyError: 'location'`; on a loaded frame it selects the rows whose
`location` equals the requested city. -/
def filterCity : Dataset → String → Except PandasError (List Record)
  | .emptyFallback, _ => .error (.keyError "location")
  | .loaded rows, city => .ok (rows.filter (fun r => r.location == city))

/-- One plotly trace (`Scattermapbox` in map mode, `Scatter` in grid mode):
the per-point data `make_plot` feeds it, plus the hover "Type" label baked
into its hovertemplate string. -/
structure Trace where
  name : String
  xs : List ℚ
  ys : List ℚ
  sizes : List ℚ
  colors : List String
  hoverLabel : String
  customdata : List (ℚ × ℚ × ℚ)
deriving DecidableEq

/-- The layout fields of the produced figure that carry data (title, map
center, zoom); pure styling constants are omitted. -/
structure Layout where
  title : String
  center : Option (ℚ × ℚ)
  zoom : Option ℕ
deriving DecidableEq

/-- A produced figure: its traces in insertion order and its layout. -/
structure Fig where
  traces : List Trace
  layout : Layout
deriving DecidableEq

/-- The map-mode hover "Type" label.  The source builds the hovertemplate
with the Python expression
`"Decrease" if "%{customdata[0]}" < "0" else "Increase" if "%{customdata[0]}" > "0" else "No Change"`,
which compares the literal template text against `"0"` lexicographically at
figure-construction time, so a single label is baked into the template and
shared by all points.  Python string order is lexicographic on code points,
modelled here as Lean's lexicographic order on the strings' character lists
(definitionally the order `String`'s `<` instance denotes). -/
def mapHoverLabel : String :=
  if "%\x7bcustomdata[0]\x7d".data < "0".data then "Decrease"
  else if "0".data < "%\x7bcustomdata[0]\x7d".data then "Increase"
  else "No Change"

/-- Mean of a pandas series: `NaN` on an empty series, modelled as `none`. -/
def seriesMean (xs : List ℚ) : Option ℚ :=
  if xs.isEmpty then none else some (xs.sum / xs.length)

/-- Map-mode branch of `make_plot`: one `Scattermapbox` trace carrying the
reprojected coordinates, each record's own `markersize` and `color`, the
template-baked hover label, and a layout centred at the mean latitude and
longitude at zoom 10, titled with the city.  `toCrs` stands for the
`set_geometry('point_geom').to_crs("EPSG:4326")` reprojection; `geometry.x`
is the longitude and `geometry.y` the latitude. -/
def mapFig (toCrs : ℚ × ℚ → ℚ × ℚ) (data : List Record) (city : String) : Fig :=
  let lats := data.map (fun r => (toCrs r.point_geom).2)
  let lons := data.map (fun r => (toCrs r.point_geom).1)
  { traces := [{
      name := "Points"
      xs := lons
      ys := lats
      sizes := data.map (fun r => r.markersize)
      colors := data.map (fun r => r.color)
      hoverLabel := mapHoverLabel
      customdata := data.map (fun r =>
        (r.tree_cover_change, r.tree_cover_2002, r.tree_cover_2022)) }]
    layout := {
      title := city
      center := (seriesMean lats).bind (fun la =>
        (seriesMean lons).map (fun lo => (la, lo)))
      zoom := some 10 } }

/-- Key order used by `data.sort_values(by="tree_cover_change")`. -/
def tccLE (a b : Record) : Prop :=
  a.tree_cover_change ≤ b.tree_cover_change

instance : DecidableRel tccLE := fun a b =>
  inferInstanceAs (Decidable (a.tree_cover_change ≤ b.tree_cover_change))

instance : IsTotal Record tccLE :=
  ⟨fun x y => le_total x.tree_cover_change y.tree_cover_change⟩

instance : IsTrans Record tccLE := ⟨fun _ _ _ h1 h2 => le_trans h1 h2⟩

/-- Modelling of `data.sort_values(by="tree_cover_change")`.  pandas' default
sort kind (`quicksort`) guarantees a permutation of the rows ascending in the
key; the relative order of tied rows is an implementation detail of the
underlying numpy introsort and is not guaranteed stable.  The embedding picks
insertion sort, one sorted permutation consistent with that contract. -/
def sortValues (rows : List Record) : List Record :=
  List.insertionSort tccLE rows

/-- A row of the grid-mode dataframe after the derived columns `x_coord`,
`y_coord` and `marker_size` are attached. -/
structure GridRow where
  cell : Record
  x_coord : ℕ
  y_coord : ℤ
  marker_size : ℚ
deriving DecidableEq

/-- The fixed column count of the synthetic grid (`n_cols = 80`). -/
def n_cols : ℕ := 80

/-- Grid-mode data preparation: after sorting, the row at 0-based position
`i` gets `x_coord = i % n_cols` and `y_coord = -(i // n_cols)`, and
`marker_size = abs(tree_cover_change) / 2`, overwritten with `0.1` on rows
whose `tree_cover_change` is exactly `0`. -/
def gridData (rows : List Record) : List GridRow :=
  (sortValues rows).enum.map (fun (p : ℕ × Record) =>
    { cell := p.2
      x_coord := p.1 % n_cols
      y_coord := -((p.1 / n_cols : ℕ) : ℤ)
      marker_size := if p.2.tree_cover_change = 0 then 1/10
        else |p.2.tree_cover_change| / 2 })

/-- The sub-frame `data[data['tree_cover_change'] < 0]`. -/
def decreaseRows (g : List GridRow) : List GridRow :=
  g.filter (fun r => r.cell.tree_cover_change < 0)

/-- The sub-frame `data[data['tree_cover_change'] > 0]`. -/
def increaseRows (g : List GridRow) : List GridRow :=
  g.filter (fun r => r.cell.tree_cover_change > 0)

/-- The sub-frame `data[data['tree_cover_change'] == 0]`. -/
def noChangeRows (g : List GridRow) : List GridRow :=
  g.filter (fun r => r.cell.tree_cover_change = 0)

/-- One grid-mode `Scatter` trace for the sub-frame `sub` carrying `label`.
`Decrease` and `Increase` pass the per-row `color` column; `No Change`
passes the single fixed color `'#E6E6E6'`, which plotly broadcasts to every
point of the trace.  The group's own label is baked into its hovertemplate. -/
def gridTrace (label : String) (sub : List GridRow) : Trace :=
  { name := label
    xs := sub.map (fun r => (r.x_coord : ℚ))
    ys := sub.map (fun r => (r.y_coord : ℚ))
    sizes := sub.map (fun r => r.marker_size)
    colors := if label ≠ "No Change" then sub.map (fun r => r.cell.color)
      else sub.map (fun _ => "#E6E6E6")
    hoverLabel := label
    customdata := sub.map (fun r =>
      (r.cell.tree_cover_change, r.cell.tree_cover_2002, r.cell.tree_cover_2022)) }

/-- Grid-mode branch of `make_plot`: the three sign groups in source order
(`Decrease`, `Increase`, `No Change`); an empty group is skipped
(`if sub.empty: continue`), so no empty trace is emitted. -/
def gridFig (data : List Record) (city : String) : Fig :=
  let g := gridData data
  let groups := [("Decrease", decreaseRows g), ("Increase", increaseRows g),
    ("No Change", noChangeRows g)]
  { traces := (groups.filter (fun p => !p.2.isEmpty)).map (fun p => gridTrace p.1 p.2)
    layout := { title := city, center := none, zoom := none } }

/-- The figure builder `make_plot(df, city, mode)`.  Filtering — and hence
the `KeyError` on the no-columns fallback frame — happens before the mode
branch.  `mode == 'map'` selects the map branch and every other mode value
falls into the `else:  # grid view` branch; no mode value is rejected.  The
source also attaches `lat`/`lon` columns before the branch, but only the map
branch ever reads them, so the embedding computes them inside `mapFig`. -/
def make_plot (toCrs : ℚ × ℚ → ℚ × ℚ) (df : Dataset) (city mode : String) :
    Except PandasError Fig :=
  match filterCity df city with
  | .error e => .error e
  | .ok data =>
    if mode = "map" then .ok (mapFig toCrs data city)
    else .ok (gridFig data city)

/-- State-passing form of `make_plot`: the caller's dataframe `df` is
threaded through the call and handed back alongside the result.  Every
column write in the source (`lat`, `lon`, `hover_text_color`, `x_coord`,
`y_coord`, `marker_size`) targets `data` — the `.copy()` produced by the
filtering step — or the sub-frame `sub`, never `df` itself, which is only
read by the boolean-mask selection. -/
def make_plot_st (toCrs : ℚ × ℚ → ℚ × ℚ) (df : Dataset) (city mode : String) :
    Except PandasError Fig × Dataset :=
  match filterCity df city with
  | .error e => (.error e, df)
  | .ok data =>
    if mode = "map" then (.ok (mapFig toCrs data city), df)
    else (.ok (gridFig data city), df)

/-- Sample Lagos record with a strict decrease in tree cover. -/
def rec1 : Record :=
  { location := "Lagos", point_geom := (3, 6), tree_cover_change := -5
    tree_cover_2002 := 40, tree_cover_2022 := 35, color := "red", markersize := 3 }

/-- Sample Lagos record with exactly zero change. -/
def rec2 : Record :=
  { location := "Lagos", point_geom := (31, 65), tree_cover_change := 0
    tree_cover_2002 := 20, tree_cover_2022 := 20, color := "blue", markersize := 2 }

/-- Sample Lagos record with a strict increase in tree cover. -/
def rec3 : Record :=
  { location := "Lagos", point_geom := (32, 64), tree_cover_change := 3
    tree_cover_2002 := 10, tree_cover_2022 := 13, color := "green", markersize := 4 }

/-- The three-record sample dataset of the spec's grid-mode scenario. -/
def sampleRows : List Record := [rec1, rec2, rec3]

/-- The sample dataset wrapped as a loaded dataframe. -/
def sampleDf : Dataset := .loaded sampleRows

example : mapHoverLabel = "Decrease" := by decide

example : (gridData sampleRows).map GridRow.x_coord = [0, 1, 2] := by decide

example : (gridData sampleRows).map GridRow.y_coord = [0, 0, 0] := by decide

example : (gridData sampleRows).map GridRow.cell = [rec1, rec2, rec3] := by decide

example :
    ((gridFig sampleRows "Lagos").traces.map Trace.name)
      = ["Decrease", "Increase", "No Change"] := by decide

/-! ### Supporting lemmas -/

/-- The modelled sort is ascending in `tree_cover_change`. -/
theorem sortValues_sorted (rows : List Record) :
    (sortValues rows).Sorted tccLE :=
  List.sorted_insertionSort tccLE rows

/-- The modelled sort permutes its input. -/
theorem sortValues_perm (rows : List Record) : (sortValues rows).Perm rows :=
  List.perm_insertionSort tccLE rows

/-- Every grid row's `x_coord` is a residue modulo the column count. -/
theorem gridData_x_coord_lt (rows : List Record) :
    ∀ r ∈ gridData rows, r.x_coord < n_cols := by
  intro r hr
  simp only [gridData, List.mem_map] at hr
  obtain ⟨p, -, rfl⟩ := hr
  exact Nat.mod_lt _ (by decide)

/-- Every sub-frame a grid trace is built from is a sub-frame of the prepared
grid data. -/
theorem gridFig_trace_rows (rows : List Record) (city : String) :
    ∀ t ∈ (gridFig rows city).traces, ∃ label sub, t = gridTrace label sub ∧
      sub ≠ [] ∧ ∀ r ∈ sub, r ∈ gridData rows := by
  intro t ht
  simp only [gridFig, List.mem_map, List.mem_filter] at ht
  obtain ⟨p, ⟨hmem, hne⟩, rfl⟩ := ht
  refine ⟨p.1, p.2, rfl, by simpa [List.isEmpty_iff] using hne, ?_⟩
  simp only [List.mem_cons, List.not_mem_nil, or_false] at hmem
  rcases hmem with h | h | h <;> subst h <;>
    exact fun r hr => List.mem_of_mem_filter hr

/-- The three sign filters hand back a permutation of the filtered list. -/
theorem sign_filters_perm (g : List GridRow) :
    (decreaseRows g ++ increaseRows g ++ noChangeRows g).Perm g := by
  have hinc : increaseRows g
      = (g.filter (fun r => !decide (r.cell.tree_cover_change < 0))).filter
        (fun r => decide (r.cell.tree_cover_change > 0)) := by
    rw [List.filter_filter]
    refine (List.filter_congr ?_).symm
    intro r _
    by_cases hgt : r.cell.tree_cover_change > 0
    · have hnlt : ¬ r.cell.tree_cover_change < 0 := by linarith
      simp [hgt, hnlt]
    · simp [hgt]
  have hnoch : noChangeRows g
      = (g.filter (fun r => !decide (r.cell.tree_cover_change < 0))).filter
        (fun r => !decide (r.cell.tree_cover_change > 0)) := by
    rw [List.filter_filter]
    refine (List.filter_congr ?_).symm
    intro r _
    rcases lt_trichotomy r.cell.tree_cover_change 0 with hlt | heq | hgt
    · simp [hlt, hlt.ne, asymm hlt]
    · simp [heq]
    · simp [hgt, hgt.ne', asymm hgt]
  have h2 := List.filter_append_perm (fun r => decide (r.cell.tree_cover_change > 0))
    (g.filter (fun r => !decide (r.cell.tree_cover_change < 0)))
  have h1 := List.filter_append_perm (fun r => decide (r.cell.tree_cover_change < 0)) g
  have heq : decreaseRows g ++ increaseRows g ++ noChangeRows g
      = g.filter (fun r => decide (r.cell.tree_cover_change < 0)) ++
          ((g.filter (fun r => !decide (r.cell.tree_cover_change < 0))).filter
              (fun r => decide (r.cell.tree_cover_change > 0)) ++
            (g.filter (fun r => !decide (r.cell.tree_cover_change < 0))).filter
              (fun r => !decide (r.cell.tree_cover_change > 0))) := by
    rw [hinc, hnoch, List.append_assoc]; rfl
  rw [heq]
  exact (List.Perm.append_left _ h2).trans h1

/-! ### Claim theorems -/

/-- C1: in map mode the hover-text classification label is NOT derived from
the sign of `treeCoverChange`.  The Python conditional compares the literal
hovertemplate text against `"0"` lexicographically when the figure is built,
which is always true (`'%' < '0'` in code-point order), so the label baked
into the template is `"Decrease"` for every point — here evaluated on a
record whose `tree_cover_change` is strictly positive, which the claim says
must be labelled `"Increase"`. -/
theorem C1_map_hover_label_ignores_sign :
    (0:ℚ) < rec3.tree_cover_change ∧
      (make_plot id (Dataset.loaded [rec3]) "Lagos" "map").map
          (fun f => f.traces.map Trace.hoverLabel) = .ok ["Decrease"] ∧
      mapHoverLabel = "Decrease" := by
  refine ⟨by decide, by rfl, by decide⟩

/-- C3 counterexample: a `viewMode` value outside both recognized values
(`"diagonal"`) does not fail with an `InvalidArgument` error — `make_plot`
returns the grid figure for the location. -/
theorem C3_counterexample_unknown_mode_not_rejected :
    "diagonal" ≠ "map" ∧ "diagonal" ≠ "grid" ∧
      make_plot id sampleDf "Lagos" "diagonal" = .ok (gridFig sampleRows "Lagos") := by
  refine ⟨by decide, by decide, ?_⟩
  rfl

/-- C3 (amended): for every dataset, location and reprojection, a `viewMode`
value outside the set of the two recognized values is not rejected with an
error; `make_plot` behaves exactly as it does for `viewMode = "grid"`. -/
theorem C3_amended_unknown_mode_is_grid (toCrs : ℚ × ℚ → ℚ × ℚ) (df : Dataset)
    (city mode : String) (h1 : mode ≠ "map") (_h2 : mode ≠ "grid") :
    make_plot toCrs df city mode = make_plot toCrs df city "grid" := by
  unfold make_plot
  cases filterCity df city with
  | error e => rfl
  | ok data => simp [h1]

/-- C3 witness: the amended claim evaluated at the dataset of the sample
Lagos records and the unrecognized mode string "satellite". -/
theorem C3_amended_witness :
    make_plot id sampleDf "Lagos" "satellite" = make_plot id sampleDf "Lagos" "grid" :=
  C3_amended_unknown_mode_is_grid id sampleDf "Lagos" "satellite"
    (by decide) (by decide)

/-- C4: on the fallback dataset (`pd.DataFrame()`, a frame with no columns)
the very first step of `make_plot`, reading `df["location"]`, raises
`KeyError: 'location'` in both view modes, instead of returning an empty
figure without exceptions as the claim requires. -/
theorem C4_fallback_dataset_raises_key_error :
    make_plot id Dataset.emptyFallback "No data available" "map"
        = .error (.keyError "location") ∧
      make_plot id Dataset.emptyFallback "No data available" "grid"
        = .error (.keyError "location") :=
  ⟨rfl, rfl⟩

/-- C9: the caller's dataset is unchanged by `make_plot`: the state-passing
embedding hands back exactly the dataframe it was given, for every dataset,
location, view mode and reprojection. -/
theorem C9_input_dataset_unchanged (toCrs : ℚ × ℚ → ℚ × ℚ) (df : Dataset)
    (city mode : String) :
    (make_plot_st toCrs df city mode).2 = df := by
  unfold make_plot_st
  cases filterCity df city with
  | error e => rfl
  | ok data => by_cases h : mode = "map" <;> simp [h]

/-- C10: every `viewMode` value other than `"map"` — the recognized `"grid"`
as well as arbitrary unrecognized strings — produces the grid-mode figure,
identical to the one produced with `viewMode = "grid"`. -/
theorem C10_nonmap_mode_gives_grid_figure (toCrs : ℚ × ℚ → ℚ × ℚ)
    (df : Dataset) (city mode : String) (h : mode ≠ "map") :
    make_plot toCrs df city mode = make_plot toCrs df city "grid" := by
  unfold make_plot
  cases filterCity df city with
  | error e => rfl
  | ok data => simp [h]

/-- C10 witness: the theorem evaluated at the sample dataset and the
arbitrary unrecognized mode string "hexagon". -/
theorem C10_witness :
    make_plot id sampleDf "Lagos" "hexagon" = make_plot id sampleDf "Lagos" "grid" :=
  C10_nonmap_mode_gives_grid_figure id sampleDf "Lagos" "hexagon" (by decide)

/-- C5: in grid mode the record at 0-based sorted index `i` sits at
`x = i mod 80` and `y = -(i div 80)`, and consequently every output point's
x-coordinate lies in `[0, 80)`. -/
theorem C5_grid_positions (rows : List Record) (city : String) (i : ℕ)
    (h : i < (gridData rows).length) :
    ((gridData rows).get ⟨i, h⟩).x_coord = i % 80 ∧
      ((gridData rows).get ⟨i, h⟩).y_coord = -((i / 80 : ℕ) : ℤ) ∧
      ((gridData rows).get ⟨i, h⟩).x_coord < 80 ∧
      (∀ t ∈ (gridFig rows city).traces, ∀ q ∈ t.xs, 0 ≤ q ∧ q < 80) := by
  have hx : ((gridData rows).get ⟨i, h⟩).x_coord = i % 80 := by
    simp [gridData, List.get_eq_getElem, List.getElem_map, List.getElem_enum, n_cols]
  refine ⟨hx, ?_, ?_, ?_⟩
  · simp [gridData, List.get_eq_getElem, List.getElem_map, List.getElem_enum, n_cols]
  · rw [hx]; exact Nat.mod_lt _ (by decide)
  · intro t ht q hq
    obtain ⟨label, sub, rfl, -, hsub⟩ := gridFig_trace_rows rows city t ht
    simp only [gridTrace, List.mem_map] at hq
    obtain ⟨r, hr, rfl⟩ := hq
    have hb : r.x_coord < 80 := by
      simpa [n_cols] using gridData_x_coord_lt rows r (hsub r hr)
    exact ⟨Nat.cast_nonneg _, by exact_mod_cast hb⟩

/-- C5 witness: the position law evaluated on the sample dataset at sorted
index 2. -/
theorem C5_witness :
    ((gridData sampleRows).get ⟨2, by decide⟩).x_coord = 2 % 80 ∧
      ((gridData sampleRows).get ⟨2, by decide⟩).y_coord = -((2 / 80 : ℕ) : ℤ) ∧
      ((gridData sampleRows).get ⟨2, by decide⟩).x_coord < 80 ∧
      (∀ t ∈ (gridFig sampleRows "Lagos").traces, ∀ q ∈ t.xs, 0 ≤ q ∧ q < 80) :=
  C5_grid_positions sampleRows "Lagos" 2 (by decide)

/-- C6: in grid mode a zero-change row's marker size is exactly 0.1, and any
other row's marker size is exactly half the absolute change. -/
theorem C6_marker_size (rows : List Record) (r : GridRow)
    (h : r ∈ gridData rows) :
    (r.cell.tree_cover_change = 0 → r.marker_size = 1/10) ∧
      (r.cell.tree_cover_change ≠ 0 →
        r.marker_size = |r.cell.tree_cover_change| / 2) := by
  simp only [gridData, List.mem_map] at h
  obtain ⟨p, -, rfl⟩ := h
  constructor
  · intro h0
    simp only at h0 ⊢
    simp [h0]
  · intro h0
    simp only at h0 ⊢
    simp [h0]

/-- C6 witness: the marker-size law evaluated on the sample dataset at the
zero-change row (sorted index 1). -/
theorem C6_witness :
    ((gridData sampleRows).get ⟨1, by decide⟩) ∈ gridData sampleRows ∧
      ((((gridData sampleRows).get ⟨1, by decide⟩).cell.tree_cover_change = 0 →
          ((gridData sampleRows).get ⟨1, by decide⟩).marker_size = 1/10) ∧
        (((gridData sampleRows).get ⟨1, by decide⟩).cell.tree_cover_change ≠ 0 →
          ((gridData sampleRows).get ⟨1, by decide⟩).marker_size
            = |((gridData sampleRows).get ⟨1, by decide⟩).cell.tree_cover_change| / 2)) :=
  ⟨List.get_mem _ _ _, C6_marker_size sampleRows _ (List.get_mem _ _ _)⟩

/-- C7: the grid point-groups partition the prepared rows by the sign of
`tree_cover_change`: every row lies in at least one group, the groups are
pairwise disjoint, zero-change rows lie exactly in `No Change`, the three
groups concatenate to a permutation of the whole prepared frame, and only
nonempty groups are emitted as traces. -/
theorem C7_sign_partition (rows : List Record) (city : String) (r : GridRow)
    (t : Trace) (hr : r ∈ gridData rows)
    (ht : t ∈ (gridFig rows city).traces) :
    (r ∈ decreaseRows (gridData rows) ∨ r ∈ increaseRows (gridData rows) ∨
        r ∈ noChangeRows (gridData rows)) ∧
      ¬ (r ∈ decreaseRows (gridData rows) ∧ r ∈ increaseRows (gridData rows)) ∧
      ¬ (r ∈ decreaseRows (gridData rows) ∧ r ∈ noChangeRows (gridData rows)) ∧
      ¬ (r ∈ increaseRows (gridData rows) ∧ r ∈ noChangeRows (gridData rows)) ∧
      (r.cell.tree_cover_change = 0 ↔ r ∈ noChangeRows (gridData rows)) ∧
      (decreaseRows (gridData rows) ++ increaseRows (gridData rows) ++
          noChangeRows (gridData rows)).Perm (gridData rows) ∧
      t.sizes ≠ [] := by
  have hdec : ∀ s : GridRow, s ∈ decreaseRows (gridData rows) ↔
      s ∈ gridData rows ∧ s.cell.tree_cover_change < 0 := by
    intro s; simp [decreaseRows, List.mem_filter]
  have hincm : ∀ s : GridRow, s ∈ increaseRows (gridData rows) ↔
      s ∈ gridData rows ∧ s.cell.tree_cover_change > 0 := by
    intro s; simp [increaseRows, List.mem_filter]
  have hnochm : ∀ s : GridRow, s ∈ noChangeRows (gridData rows) ↔
      s ∈ gridData rows ∧ s.cell.tree_cover_change = 0 := by
    intro s; simp [noChangeRows, List.mem_filter]
  refine ⟨?_, ?_, ?_, ?_, ?_, sign_filters_perm _, ?_⟩
  · rcases lt_trichotomy r.cell.tree_cover_change 0 with hlt | heq | hgt
    · exact Or.inl ((hdec r).2 ⟨hr, hlt⟩)
    · exact Or.inr (Or.inr ((hnochm r).2 ⟨hr, heq⟩))
    · exact Or.inr (Or.inl ((hincm r).2 ⟨hr, hgt⟩))
  · rintro ⟨h1, h2⟩
    have a1 := ((hdec r).1 h1).2
    have a2 := ((hincm r).1 h2).2
    linarith
  · rintro ⟨h1, h2⟩
    have a1 := ((hdec r).1 h1).2
    have a2 := ((hnochm r).1 h2).2
    linarith
  · rintro ⟨h1, h2⟩
    have a1 := ((hincm r).1 h1).2
    have a2 := ((hnochm r).1 h2).2
    linarith
  · exact ⟨fun h0 => (hnochm r).2 ⟨hr, h0⟩, fun hm => ((hnochm r).1 hm).2⟩
  · obtain ⟨label, sub, rfl, hne, -⟩ := gridFig_trace_rows rows city t ht
    simpa [gridTrace, List.map_eq_nil_iff] using hne

/-- The first prepared grid row of the sample dataset. -/
abbrev sampleRow0 : GridRow := (gridData sampleRows).get ⟨0, by decide⟩

/-- The first emitted grid trace of the sample dataset. -/
abbrev sampleTrace0 : Trace :=
  (gridFig sampleRows "Lagos").traces.get ⟨0, by decide⟩

/-- C7 witness: the partition evaluated on the sample dataset at its first
prepared row and first emitted trace. -/
theorem C7_witness :
    (sampleRow0 ∈ decreaseRows (gridData sampleRows) ∨
        sampleRow0 ∈ increaseRows (gridData sampleRows) ∨
        sampleRow0 ∈ noChangeRows (gridData sampleRows)) ∧
      ¬ (sampleRow0 ∈ decreaseRows (gridData sampleRows) ∧
          sampleRow0 ∈ increaseRows (gridData sampleRows)) ∧
      ¬ (sampleRow0 ∈ decreaseRows (gridData sampleRows) ∧
          sampleRow0 ∈ noChangeRows (gridData sampleRows)) ∧
      ¬ (sampleRow0 ∈ increaseRows (gridData sampleRows) ∧
          sampleRow0 ∈ noChangeRows (gridData sampleRows)) ∧
      (sampleRow0.cell.tree_cover_change = 0 ↔
        sampleRow0 ∈ noChangeRows (gridData sampleRows)) ∧
      (decreaseRows (gridData sampleRows) ++ increaseRows (gridData sampleRows) ++
          noChangeRows (gridData sampleRows)).Perm (gridData sampleRows) ∧
      sampleTrace0.sizes ≠ [] :=
  C7_sign_partition sampleRows "Lagos" sampleRow0 sampleTrace0
    (List.get_mem _ _ _) (List.get_mem _ _ _)

/-- C8: the `Decrease` and `Increase` traces carry each row's own `color`
column, while every point of the `No Change` trace is colored with the one
fixed neutral color, whatever the rows' own colors are. -/
theorem C8_group_colors (rows : List Record) (city : String) (t : Trace)
    (ht : t ∈ (gridFig rows city).traces) :
    (t.name = "Decrease" →
        t.colors = (decreaseRows (gridData rows)).map (fun r => r.cell.color)) ∧
      (t.name = "Increase" →
        t.colors = (increaseRows (gridData rows)).map (fun r => r.cell.color)) ∧
      (t.name = "No Change" → ∀ c ∈ t.colors, c = "#E6E6E6") := by
  simp only [gridFig, List.mem_map, List.mem_filter] at ht
  obtain ⟨p, ⟨hmem, -⟩, rfl⟩ := ht
  simp only [List.mem_cons, List.not_mem_nil, or_false] at hmem
  rcases hmem with h | h | h <;> subst h
  · refine ⟨fun _ => ?_,
      fun hc => absurd hc (show ¬ ("Decrease" : String) = "Increase" by decide),
      fun hc => absurd hc (show ¬ ("Decrease" : String) = "No Change" by decide)⟩
    simp [gridTrace]
  · refine ⟨fun hc => absurd hc (show ¬ ("Increase" : String) = "Decrease" by decide),
      fun _ => ?_,
      fun hc => absurd hc (show ¬ ("Increase" : String) = "No Change" by decide)⟩
    simp [gridTrace]
  · refine ⟨fun hc => absurd hc (show ¬ ("No Change" : String) = "Decrease" by decide),
      fun hc => absurd hc (show ¬ ("No Change" : String) = "Increase" by decide),
      fun _ c hc => ?_⟩
    simp only [gridTrace] at hc
    rw [if_neg (by simp)] at hc
    obtain ⟨s, -, rfl⟩ := List.mem_map.1 hc
    rfl

/-- The last emitted grid trace of the sample dataset (the `No Change`
group; its only row, the `rec2` row, has its own color `"blue"`). -/
abbrev sampleTrace2 : Trace :=
  (gridFig sampleRows "Lagos").traces.get ⟨2, by decide⟩

/-- C8 witness: the color law evaluated on the sample dataset at the
`No Change` trace. -/
theorem C8_witness :
    (sampleTrace2.name = "Decrease" →
        sampleTrace2.colors
          = (decreaseRows (gridData sampleRows)).map (fun r => r.cell.color)) ∧
      (sampleTrace2.name = "Increase" →
        sampleTrace2.colors
          = (increaseRows (gridData sampleRows)).map (fun r => r.cell.color)) ∧
      (sampleTrace2.name = "No Change" → ∀ c ∈ sampleTrace2.colors, c = "#E6E6E6") :=
  C8_group_colors sampleRows "Lagos" sampleTrace2 (List.get_mem _ _ _)

end TreeCoverDash
